import Mathlib

/-!
Verification of the I18XS message-resolution engine (canonical modern version,
`src/index.ts`): identifier resolution over localization trees, pluralization,
and placeholder substitution.  The definitions below are a shallow embedding of
the TypeScript source.  File-system loading (`loadFileContent` and the preload
scan) is an external collaborator; the embedding models the in-memory cache
(`_localizations`), which is how the library runs when `fs` is unavailable
(React Native / browser) and after preloading has populated the cache.
-/

namespace I18XS

/-- A JavaScript runtime value as it may appear in a `LocalizationData`
interpolation mapping.  Numbers are modelled as integers (the plural counts
and interpolation values exercised by the library are integral). -/
inductive JSValue where
  | num (n : Int)
  | str (s : String)
  | null
  | undef

/-- A node of a localization tree: either a translatable string or a nested
object (`type Localization = { [key: string]: string | Localization }`).
A JavaScript object is modelled as its ordered list of key/value entries
(keys unique, insertion-ordered, as in a JSON-parsed object). -/
inductive Localization where
  | str (s : String)
  | node (entries : List (String × Localization))

/-- A localization tree root: always an object in the TypeScript code. -/
abbrev LocTree := List (String × Localization)

/-- Interpolation data: an ordered JavaScript object of key/value pairs. -/
abbrev LocalizationData := List (String × JSValue)

/-- The instance state of an `I18XS` object: the configuration fields set by
`configure` together with the `_localizations` cache
(`Record<locale, Record<fileName, Localization>>`). -/
structure Config where
  supportedLocales : List String
  currentLocale : String
  fallbackLocale : String
  showMissingIdentifierMessage : Bool
  missingIdentifierMessage : String
  rtlLocales : List String
  localizations : List (String × List (String × LocTree))
  preloadLocalizations : Bool

/-- JavaScript `String(value)` on a `JSValue`. -/
def jsToString : JSValue → String
  | .num n => toString n
  | .str s => s
  | .null => "null"
  | .undef => "undefined"

/-- The replacement text `replaceData` uses for one data value:
`value !== null && value !== undefined ? String(value) : ''`. -/
def replacementFor : JSValue → String
  | .null => ""
  | .undef => ""
  | .num n => jsToString (.num n)
  | .str s => jsToString (.str s)

/-- Whether `pat` is a prefix of `l` (the test `RegExp` performs at one
position of the subject string). -/
def matchesAt : List Char → List Char → Bool
  | [], _ => true
  | _ :: _, [] => false
  | p :: ps, c :: cs => p == c && matchesAt ps cs

/-- One global-`RegExp` replacement pass, as in
`acc.replace(new RegExp(pattern, 'g'), repl)` for a literal pattern:
scan left to right, replacing each non-overlapping occurrence.  The fuel
argument (instantiated with the subject length) makes the recursion
structural; the pattern is never empty in the library (it is always
`{` ++ key ++ `}`), so the fuel never runs out before the subject does. -/
def replaceFuel (pat repl : List Char) : Nat → List Char → List Char
  | 0, l => l
  | _ + 1, [] => []
  | n + 1, c :: cs =>
    if matchesAt pat (c :: cs) then
      repl ++ replaceFuel pat repl n ((c :: cs).drop pat.length)
    else
      c :: replaceFuel pat repl n cs

/-- JavaScript `s.replace(new RegExp(pat, 'g'), repl)` for a literal pattern. -/
def jsReplaceAll (s pat repl : String) : String :=
  String.mk (replaceFuel pat.data repl.data s.data.length s.data)

/-- `replaceData(message, data)`: for each key of `data` in iteration order,
globally replace the token `{key}` by the value's replacement text; absent
`data` (JS `undefined`) returns the message unchanged. -/
def replaceData (message : String) (data : Option LocalizationData) : String :=
  match data with
  | none => message
  | some d =>
    d.foldl (fun acc kv => jsReplaceAll acc ("\x7b" ++ kv.1 ++ "\x7d") (replacementFor kv.2)) message

/-- Split a character list at every occurrence of `sep`, JavaScript
`String.prototype.split` style: the empty input yields one empty field. -/
def splitChars (sep : Char) : List Char → List (List Char)
  | [] => [[]]
  | c :: cs =>
    if c == sep then [] :: splitChars sep cs
    else (c :: (splitChars sep cs).headD []) :: (splitChars sep cs).tail

/-- JavaScript `identifier.split('.')`. -/
def jsSplitDot (s : String) : List String :=
  (splitChars '.' s.data).map String.mk

/-- JavaScript `keys.join('.')`. -/
def jsJoinDot : List String → String
  | [] => ""
  | [s] => s
  | s :: rest => s ++ "." ++ jsJoinDot rest

/-- JavaScript `identifier.includes('.')`. -/
def includesDot (s : String) : Bool :=
  s.data.contains '.'

/-- `splitIdentifier(identifier)`: `keys = identifier.split('.')`, returning
`(fileName, keys.slice(1))`. -/
def splitIdentifier (identifier : String) : String × List String :=
  ((jsSplitDot identifier).headD "", (jsSplitDot identifier).tail)

/-- One step of the nested-path `reduce` shared by `searchForLocalization`
and `searchForLocalizationDirect`:
`if (acc === undefined) return undefined; return typeof acc === 'object' ? acc[key] : acc`. -/
def searchStep (acc : Option Localization) (key : String) : Option Localization :=
  match acc with
  | none => none
  | some (.str s) => some (.str s)
  | some (.node es) => es.lookup key

/-- `searchForLocalization(identifier, localization)`: strip the file-name
segment, first try the remaining path joined with `.` as a flat root key,
then fall back to nested navigation over the stripped segments. -/
def searchForLocalization (identifier : String) (localization : LocTree) : Option Localization :=
  match localization.lookup (jsJoinDot (splitIdentifier identifier).2) with
  | some v => some v
  | none => (splitIdentifier identifier).2.foldl searchStep (some (.node localization))

/-- `searchForLocalizationDirect(identifier, localization)`: try the whole
identifier as a flat root key, then nested navigation over all segments. -/
def searchForLocalizationDirect (identifier : String) (localization : LocTree) : Option Localization :=
  match localization.lookup identifier with
  | some v => some v
  | none => (jsSplitDot identifier).foldl searchStep (some (.node localization))

/-- JavaScript falsiness of a resolved `string | Localization | undefined`
value: `undefined` and the empty string are falsy, objects are truthy. -/
def isFalsy : Option Localization → Bool
  | none => true
  | some (.str s) => s == ""
  | some (.node _) => false

/-- A node at which the nested-path `reduce` can no longer descend: the JS
accumulator is `undefined` or a string (not a traversable object). -/
def isNonTree : Option Localization → Bool
  | none => true
  | some (.str _) => true
  | some (.node _) => false

/-- `this._localizations[locale]?.[fileName]` on the in-memory cache. -/
def getLocaleFile (cfg : Config) (locale fileName : String) : Option LocTree :=
  match cfg.localizations.lookup locale with
  | some files => files.lookup fileName
  | none => none

/-- The merged localization consulted by `formatMessage` when preloading is
enabled: `_localizations[currentLocale]?.['__merged__'] ||
_localizations[fallbackLocale]?.['__merged__']` (objects are always truthy). -/
def mergedLocalization (cfg : Config) : Option LocTree :=
  if cfg.preloadLocalizations then
    match getLocaleFile cfg cfg.currentLocale "__merged__" with
    | some m => some m
    | none => getLocaleFile cfg cfg.fallbackLocale "__merged__"
  else none

/-- `loadLocalization(fileName)` restricted to the in-memory cache: the
preloaded merged view (current then fallback locale), then the per-file
cache (current then fallback locale).  The subsequent file-system probe is
an external collaborator and is modelled as absent (`undefined`). -/
def loadLocalization (cfg : Config) (fileName : String) : Option LocTree :=
  match mergedLocalization cfg with
  | some m => some m
  | none =>
    match getLocaleFile cfg cfg.currentLocale fileName with
    | some l => some l
    | none =>
      match getLocaleFile cfg cfg.fallbackLocale fileName with
      | some l => some l
      | none => none

/-- `hasIdentifier(identifier)`: falsy file name, failed load, or falsy
search result yield `false`; otherwise `true`. -/
def hasIdentifier (cfg : Config) (identifier : String) : Bool :=
  if (splitIdentifier identifier).1 == "" then false
  else
    match loadLocalization cfg (splitIdentifier identifier).1 with
    | none => false
    | some localization => !(isFalsy (searchForLocalization identifier localization))

/-- `isPluralizationObject(obj)`:
`'other' in obj || 'zero' in obj || 'one' in obj || 'two' in obj`. -/
def isPluralizationObject (es : List (String × Localization)) : Bool :=
  (es.lookup "other").isSome || (es.lookup "zero").isSome ||
    (es.lookup "one").isSome || (es.lookup "two").isSome

/-- Count extraction in `formatMessageValue`: prefer a numeric `count` key,
else the first key's value when it is numeric and the first key is truthy,
else `0`. -/
def extractCount (data : Option LocalizationData) : Int :=
  match data with
  | none => 0
  | some d =>
    match d.lookup "count" with
    | some (.num n) => n
    | _ =>
      match d.head? with
      | some (firstKey, _) =>
        if firstKey == "" then 0
        else
          match d.lookup firstKey with
          | some (.num n) => n
          | _ => 0
      | none => 0

/-- The `switch (count)` plural-form selection of `formatMessageValue`. -/
def selectForm (es : List (String × Localization)) (count : Int) : Option Localization :=
  if count == 0 then es.lookup "zero"
  else if count == 1 then es.lookup "one"
  else if count == 2 then es.lookup "two"
  else es.lookup "other"

/-- The error result of `formatMessageValue` for malformed pluralization
input: the configured placeholder or the empty string. -/
def pluralErrorResult (cfg : Config) : String :=
  if cfg.showMissingIdentifierMessage then cfg.missingIdentifierMessage else ""

/-- `formatMessageValue(message, data)`: strings go straight to placeholder
substitution; objects must be pluralization records, the count-selected
form falls back to `other` when falsy, and a final selection that is not a
non-empty string yields the error result. -/
def formatMessageValue (cfg : Config) (message : Localization) (data : Option LocalizationData) : String :=
  match message with
  | .str s => replaceData s data
  | .node es =>
    if isPluralizationObject es then
      match (if isFalsy (selectForm es (extractCount data)) then es.lookup "other"
             else selectForm es (extractCount data)) with
      | some (.str s) => if s == "" then pluralErrorResult cfg else replaceData s data
      | _ => pluralErrorResult cfg
    else pluralErrorResult cfg

/-- The not-found result of `formatMessage`: the configured placeholder when
`showMissingIdentifierMessage` is set, else the identifier itself. -/
def missingResult (cfg : Config) (identifier : String) : String :=
  if cfg.showMissingIdentifierMessage then cfg.missingIdentifierMessage else identifier

/-- The merged-mode lookup of `formatMessage` including the
backward-compatibility retry: when the direct lookup is falsy and the
identifier contains a dot, retry with the first segment stripped (provided
the stripped path is non-empty). -/
def retryMessage (merged : LocTree) (identifier : String) : Option Localization :=
  if isFalsy (searchForLocalizationDirect identifier merged) && includesDot identifier then
    if jsJoinDot (splitIdentifier identifier).2 ≠ "" then
      searchForLocalizationDirect (jsJoinDot (splitIdentifier identifier).2) merged
    else searchForLocalizationDirect identifier merged
  else searchForLocalizationDirect identifier merged

/-- The shared tail of `formatMessage`: a truthy resolved value is formatted,
a falsy one yields the not-found result. -/
def dispatchMessage (cfg : Config) (identifier : String) (data : Option LocalizationData)
    (m : Option Localization) : String :=
  match m with
  | some v => if isFalsy (some v) then missingResult cfg identifier else formatMessageValue cfg v data
  | none => missingResult cfg identifier

/-- `formatMessage(identifier, data)`: merged-mode lookup with retry when a
merged view exists, otherwise the traditional file-based path over the
in-memory cache. -/
def formatMessage (cfg : Config) (identifier : String) (data : Option LocalizationData) : String :=
  match mergedLocalization cfg with
  | some merged => dispatchMessage cfg identifier data (retryMessage merged identifier)
  | none =>
    if (splitIdentifier identifier).1 == "" then missingResult cfg identifier
    else
      match loadLocalization cfg (splitIdentifier identifier).1 with
      | none => missingResult cfg identifier
      | some localization =>
        dispatchMessage cfg identifier data (searchForLocalization identifier localization)

/-- `t(identifier, data)` forwards to `formatMessage`. -/
def t (cfg : Config) (identifier : String) (data : Option LocalizationData) : String :=
  formatMessage cfg identifier data

/-- `changeCurrentLocale(locale)`: unsupported locales leave the instance
unchanged (the rejection is only logged); supported ones update
`_currentLocale`.  Both branches return the instance. -/
def changeCurrentLocale (cfg : Config) (locale : String) : Config :=
  if cfg.supportedLocales.contains locale then { cfg with currentLocale := locale }
  else cfg

/-- `isCurrentLocale(locale)`: `this._supportedLocales.includes(locale)`. -/
def isCurrentLocale (cfg : Config) (locale : String) : Bool :=
  cfg.supportedLocales.contains locale

/- ------------------------------------------------------------------ -/
/- Helper lemmas                                                       -/
/- ------------------------------------------------------------------ -/

/-- Folding the nested-path step over any further segments from a
non-traversable accumulator leaves the accumulator unchanged. -/
theorem foldl_searchStep_nonTree (acc : Option Localization) (q : List String)
    (h : isNonTree acc = true) : q.foldl searchStep acc = acc := by
  induction q with
  | nil => rfl
  | cons k ks ih =>
    have hstep : searchStep acc k = acc := by
      cases acc with
      | none => rfl
      | some v =>
        cases v with
        | str s => rfl
        | node es => simp [isNonTree] at h
    rw [List.foldl_cons, hstep, ih]

/- ------------------------------------------------------------------ -/
/- Claim theorems                                                      -/
/- ------------------------------------------------------------------ -/

/-- C2: for every localization tree and identifier whose full dotted lookup
path (after the namespace segment is stripped by `searchForLocalization`;
the whole identifier for `searchForLocalizationDirect`) is a literal root
key of the tree, resolution returns that root key's value, taking
precedence over nested-path traversal of the same segments. -/
theorem flat_key_precedence :
    (∀ (identifier : String) (root : LocTree) (v : Localization),
      root.lookup (jsJoinDot (splitIdentifier identifier).2) = some v →
      searchForLocalization identifier root = some v) ∧
    (∀ (identifier : String) (root : LocTree) (v : Localization),
      root.lookup identifier = some v →
      searchForLocalizationDirect identifier root = some v) := by
  constructor
  · intro identifier root v h
    unfold searchForLocalization
    rw [h]
  · intro identifier root v h
    unfold searchForLocalizationDirect
    rw [h]

/-- Witness for C2 at a tree whose root stores a key with literal dots. -/
theorem flat_key_precedence_witness :
    searchForLocalization "general.api.error" [("api.error", Localization.str "X")] =
      some (Localization.str "X") ∧
    searchForLocalizationDirect "api.error" [("api.error", Localization.str "X")] =
      some (Localization.str "X") :=
  ⟨flat_key_precedence.1 "general.api.error" [("api.error", Localization.str "X")]
      (Localization.str "X") rfl,
    flat_key_precedence.2 "api.error" [("api.error", Localization.str "X")]
      (Localization.str "X") rfl⟩

/-- C3: during nested-path traversal, if traversal of a prefix of the
segments reaches a node that is not a traversable tree (a string or
`undefined`), the remaining segments do not change the result: traversal
stops and that node is returned (best-effort partial match). -/
theorem nested_traversal_stops (root : LocTree) (p q : List String)
    (h : isNonTree (p.foldl searchStep (some (Localization.node root))) = true) :
    (p ++ q).foldl searchStep (some (Localization.node root)) =
      p.foldl searchStep (some (Localization.node root)) := by
  rw [List.foldl_append]
  exact foldl_searchStep_nonTree _ q h

/-- Witness for C3: traversal reaches the string `"X"` after one segment and
two further unconsumed segments leave it unchanged. -/
theorem nested_traversal_stops_witness :
    isNonTree (["a"].foldl searchStep (some (Localization.node [("a", Localization.str "X")]))) = true ∧
    (["a"] ++ ["b", "c"]).foldl searchStep (some (Localization.node [("a", Localization.str "X")])) =
      ["a"].foldl searchStep (some (Localization.node [("a", Localization.str "X")])) :=
  ⟨rfl, nested_traversal_stops [("a", Localization.str "X")] ["a"] ["b", "c"] rfl⟩

/-- A concrete instance state: one supported locale `en`, which is also the
current and fallback locale, default policy flags, empty cache. -/
def cfgEn : Config :=
  { supportedLocales := ["en"]
    currentLocale := "en"
    fallbackLocale := "en"
    showMissingIdentifierMessage := false
    missingIdentifierMessage := "Missing_Localization_Identifier"
    rtlLocales := ["ar", "he", "fa", "ur", "ps", "ckb", "syr", "dv", "ug"]
    localizations := []
    preloadLocalizations := true }

/-- C8 counterexample: `changeCurrentLocale` returns the instance in both
branches, so the value returned for the unsupported locale `"xx"` is
identical to the value returned for the accepted locale `"en"` — the
return carries no rejection indicator.  (The state is indeed unchanged.) -/
theorem changeCurrentLocale_no_rejection_indicator :
    cfgEn.supportedLocales.contains "xx" = false ∧
    cfgEn.supportedLocales.contains "en" = true ∧
    changeCurrentLocale cfgEn "xx" = cfgEn ∧
    changeCurrentLocale cfgEn "xx" = changeCurrentLocale cfgEn "en" :=
  ⟨rfl, rfl, rfl, rfl⟩

/-- C8 amended: calling the current-locale setter with a locale that is not
in the supported list leaves the whole instance state unchanged and raises
no error (the setter is total); the returned value is the unchanged
instance itself, not a distinct rejection indicator. -/
theorem changeCurrentLocale_unsupported_noop (cfg : Config) (locale : String)
    (h : cfg.supportedLocales.contains locale = false) :
    changeCurrentLocale cfg locale = cfg := by
  unfold changeCurrentLocale
  rw [h]
  simp

/-- Witness for the amended C8 at the concrete unsupported locale `"xx"`. -/
theorem changeCurrentLocale_unsupported_noop_witness :
    changeCurrentLocale cfgEn "xx" = cfgEn :=
  changeCurrentLocale_unsupported_noop cfgEn "xx" rfl

/-- C9: `isCurrentLocale(locale)` returns `true` exactly when the argument is
a member of the supported-locales list, and its result does not depend on
the instance's current locale at all. -/
theorem isCurrentLocale_checks_supported_list :
    ∀ (cfg : Config) (locale : String),
      (isCurrentLocale cfg locale = true ↔ locale ∈ cfg.supportedLocales) ∧
      ∀ (c : String), isCurrentLocale { cfg with currentLocale := c } locale =
        isCurrentLocale cfg locale := by
  intro cfg locale
  constructor
  · exact List.elem_iff
  · intro c
    rfl

/-- Witness for C9: `"fr"` is reported even though the current locale is
`"en"`, and changing the current locale does not affect the result. -/
theorem isCurrentLocale_checks_supported_list_witness :
    (isCurrentLocale { cfgEn with supportedLocales := ["en", "fr"] } "fr" = true) ∧
    isCurrentLocale { { cfgEn with supportedLocales := ["en", "fr"] } with currentLocale := "zz" } "fr" =
      isCurrentLocale { cfgEn with supportedLocales := ["en", "fr"] } "fr" :=
  ⟨(isCurrentLocale_checks_supported_list { cfgEn with supportedLocales := ["en", "fr"] } "fr").1.mpr
      (by simp),
    (isCurrentLocale_checks_supported_list { cfgEn with supportedLocales := ["en", "fr"] } "fr").2 "zz"⟩


/-- The lookup that `selectForm` performs always targets one of the four
plural keys, so a successful selection certifies a pluralization object. -/
theorem selectForm_some_isPlural (es : List (String × Localization)) (c : Int) (v : Localization)
    (h : selectForm es c = some v) : isPluralizationObject es = true := by
  unfold selectForm at h
  split at h
  · simp [isPluralizationObject, h]
  · split at h
    · simp [isPluralizationObject, h]
    · split at h
      · simp [isPluralizationObject, h]
      · simp [isPluralizationObject, h]

/-- C1 (amended): for every Pluralization Record whose `zero`, `one`, `two`
and `other` forms are present as non-empty strings, and every count `c`,
formatting with data `(count : c)` returns the placeholder-substituted
`zero` form when `c = 0`, `one` when `c = 1`, `two` when `c = 2`, and
otherwise the placeholder-substituted `other` form: the code passes every
selected form (not just `other`) through `replaceData`. -/
theorem plural_forms_substituted (cfg : Config) (es : List (String × Localization))
    (z o tw x : String) (c : Int)
    (hz : es.lookup "zero" = some (.str z)) (hz2 : z ≠ "")
    (ho : es.lookup "one" = some (.str o)) (ho2 : o ≠ "")
    (ht : es.lookup "two" = some (.str tw)) (ht2 : tw ≠ "")
    (hx : es.lookup "other" = some (.str x)) (hx2 : x ≠ "") :
    formatMessageValue cfg (.node es) (some [("count", .num c)]) =
      if c = 0 then replaceData z (some [("count", .num c)])
      else if c = 1 then replaceData o (some [("count", .num c)])
      else if c = 2 then replaceData tw (some [("count", .num c)])
      else replaceData x (some [("count", .num c)]) := by
  have hc : extractCount (some [("count", JSValue.num c)]) = c := by
    simp [extractCount, List.lookup]
  by_cases h0 : c = 0
  · subst h0
    simp [formatMessageValue, isPluralizationObject, hx, hc, selectForm, hz, isFalsy, hz2]
  · by_cases h1 : c = 1
    · subst h1
      simp [formatMessageValue, isPluralizationObject, hx, hc, selectForm, ho, isFalsy, ho2]
    · by_cases h2 : c = 2
      · subst h2
        simp [formatMessageValue, isPluralizationObject, hx, hc, selectForm, ht, isFalsy, ht2]
      · simp [formatMessageValue, isPluralizationObject, hx, hc, selectForm, isFalsy, hx2, h0, h1, h2]

/-- Witness for the amended C1 at count `5`, where the `other` form is
selected and substituted. -/
theorem plural_forms_substituted_witness :
    formatMessageValue cfgEn
      (Localization.node [("zero", Localization.str "Z"), ("one", Localization.str "O"),
        ("two", Localization.str "T"), ("other", Localization.str "X\x7bcount\x7d")])
      (some [("count", JSValue.num 5)]) =
      replaceData "X\x7bcount\x7d" (some [("count", JSValue.num 5)]) := by
  simpa using plural_forms_substituted cfgEn
    [("zero", Localization.str "Z"), ("one", Localization.str "O"),
      ("two", Localization.str "T"), ("other", Localization.str "X\x7bcount\x7d")]
    "Z" "O" "T" "X\x7bcount\x7d" 5 rfl (by decide) rfl (by decide) rfl (by decide) rfl (by decide)

/-- C1 counterexample: with the record
`(zero : "Z\x7bcount\x7dZ", one : "O", two : "T", other : "X")` and count `0`,
the code returns the substituted string `"Z0Z"`, not `P.zero` itself as the
claim states — substitution is applied to the `zero`/`one`/`two` forms as
well, not only to `other`. -/
theorem plural_zero_not_returned_verbatim :
    formatMessageValue cfgEn
      (Localization.node [("zero", Localization.str "Z\x7bcount\x7dZ"), ("one", Localization.str "O"),
        ("two", Localization.str "T"), ("other", Localization.str "X")])
      (some [("count", JSValue.num 0)]) = "Z0Z" ∧
    ("Z0Z" : String) ≠ "Z\x7bcount\x7dZ" :=
  ⟨rfl, by decide⟩

/-- C10: when the plural form matching the count exists but is the empty
string (or is absent — the falsy cases), the formatter falls back to the
`other` form; the count-specific form is used (substituted and returned)
only when it is a non-empty string. -/
theorem empty_plural_form_falls_back :
    (∀ (cfg : Config) (es : List (String × Localization)) (data : Option LocalizationData) (x : String),
      es.lookup "other" = some (Localization.str x) → x ≠ "" →
      isFalsy (selectForm es (extractCount data)) = true →
      formatMessageValue cfg (Localization.node es) data = replaceData x data) ∧
    (∀ (cfg : Config) (es : List (String × Localization)) (data : Option LocalizationData) (s : String),
      selectForm es (extractCount data) = some (Localization.str s) → s ≠ "" →
      formatMessageValue cfg (Localization.node es) data = replaceData s data) := by
  constructor
  · intro cfg es data x hx hx2 hfalsy
    simp [formatMessageValue, isPluralizationObject, hx, hfalsy, hx2]
  · intro cfg es data s hs hs2
    have hplur := selectForm_some_isPlural es (extractCount data) _ hs
    simp [formatMessageValue, hplur, hs, isFalsy, hs2]

/-- Witness for C10: an empty `one` form falls back to `other` at count `1`,
and a non-empty `zero` form is used directly at count `0`. -/
theorem empty_plural_form_falls_back_witness :
    formatMessageValue cfgEn (Localization.node [("one", Localization.str ""), ("other", Localization.str "O")])
      (some [("c", JSValue.num 1)]) = replaceData "O" (some [("c", JSValue.num 1)]) ∧
    formatMessageValue cfgEn (Localization.node [("zero", Localization.str "Z"), ("other", Localization.str "X")])
      none = replaceData "Z" none :=
  ⟨empty_plural_form_falls_back.1 cfgEn _ _ "O" rfl (by decide) rfl,
    empty_plural_form_falls_back.2 cfgEn _ _ "Z" rfl (by decide)⟩


/-- A falsy resolved message makes the `formatMessage` tail produce the
not-found result. -/
theorem dispatchMessage_falsy (cfg : Config) (identifier : String)
    (data : Option LocalizationData) (m : Option Localization) (h : isFalsy m = true) :
    dispatchMessage cfg identifier data m = missingResult cfg identifier := by
  cases m with
  | none => rfl
  | some v => simp [dispatchMessage, h]

/-- When both the direct lookup and the stripped retry are falsy, the
merged-mode lookup with retry is falsy. -/
theorem retryMessage_falsy (merged : LocTree) (identifier : String)
    (h1 : isFalsy (searchForLocalizationDirect identifier merged) = true)
    (h2 : isFalsy (searchForLocalizationDirect (jsJoinDot (splitIdentifier identifier).2) merged) = true) :
    isFalsy (retryMessage merged identifier) = true := by
  unfold retryMessage
  split
  · split
    · exact h2
    · exact h1
  · exact h1

/-- C4: in merged (no-namespace) mode, when the direct lookup of a dotted
identifier is falsy, the lookup is retried with the first dot-separated
segment stripped, and a truthy retried result is the one formatted and
returned. -/
theorem merged_retry_strips_first_segment (cfg : Config) (merged : LocTree)
    (identifier : String) (data : Option LocalizationData) (v : Localization)
    (hm : mergedLocalization cfg = some merged)
    (hdot : includesDot identifier = true)
    (h1 : isFalsy (searchForLocalizationDirect identifier merged) = true)
    (hnz : jsJoinDot (splitIdentifier identifier).2 ≠ "")
    (hretry : searchForLocalizationDirect (jsJoinDot (splitIdentifier identifier).2) merged = some v)
    (hv : isFalsy (some v) = false) :
    formatMessage cfg identifier data = formatMessageValue cfg v data := by
  have hr : retryMessage merged identifier = some v := by
    simp [retryMessage, h1, hdot, hnz, hretry]
  simp [formatMessage, hm, dispatchMessage, hr, hv]

/-- The merged cache used by the C4 witness: the key is only reachable after
the legacy `general.` prefix is stripped. -/
def cfgMergedHello : Config :=
  { cfgEn with localizations := [("en", [("__merged__", [("Hello_World", Localization.str "Hello World")])])] }

/-- Witness for C4 on the legacy identifier `general.Hello_World`. -/
theorem merged_retry_strips_first_segment_witness :
    formatMessage cfgMergedHello "general.Hello_World" none =
      formatMessageValue cfgMergedHello (Localization.str "Hello World") none :=
  merged_retry_strips_first_segment cfgMergedHello
    [("Hello_World", Localization.str "Hello World")] "general.Hello_World" none
    (Localization.str "Hello World") rfl rfl rfl (by decide) rfl rfl

/-- C7: an identifier that resolves to no value (both the direct merged
lookup and the stripped retry are falsy) makes `t` return the raw
identifier when the missing-identifier policy flag is disabled, and the
configured missing-identifier message when it is enabled. -/
theorem missing_identifier_policy (cfg : Config) (merged : LocTree)
    (identifier : String) (data : Option LocalizationData)
    (hm : mergedLocalization cfg = some merged)
    (h1 : isFalsy (searchForLocalizationDirect identifier merged) = true)
    (h2 : isFalsy (searchForLocalizationDirect (jsJoinDot (splitIdentifier identifier).2) merged) = true) :
    t cfg identifier data =
      if cfg.showMissingIdentifierMessage then cfg.missingIdentifierMessage else identifier := by
  unfold t
  simp only [formatMessage, hm]
  rw [dispatchMessage_falsy _ _ _ _ (retryMessage_falsy merged identifier h1 h2)]
  rfl

/-- An instance over an empty merged tree with the missing-identifier policy
flag disabled. -/
def cfgEmptyTree : Config :=
  { cfgEn with localizations := [("en", [("__merged__", [])])] }

/-- The same instance with the missing-identifier policy flag enabled. -/
def cfgEmptyTreeShow : Config :=
  { cfgEmptyTree with showMissingIdentifierMessage := true }

/-- Witness for C7 against the empty tree, under both policy flags. -/
theorem missing_identifier_policy_witness :
    t cfgEmptyTree "general.Hello_World" none = "general.Hello_World" ∧
    t cfgEmptyTreeShow "general.Hello_World" none = "Missing_Localization_Identifier" :=
  ⟨by simpa [cfgEmptyTree, cfgEn] using
      missing_identifier_policy cfgEmptyTree [] "general.Hello_World" none rfl rfl rfl,
    by simpa [cfgEmptyTreeShow, cfgEmptyTree, cfgEn] using
      missing_identifier_policy cfgEmptyTreeShow [] "general.Hello_World" none rfl rfl rfl⟩

/-- A merged tree whose `Empty` key stores the empty string. -/
def cfgEmptyVal : Config :=
  { cfgEn with localizations := [("en", [("__merged__", [("Empty", Localization.str "")])])] }

/-- C6 counterexample: the identifier `general.Empty` resolves to the stored
empty string, yet `hasIdentifier` reports it missing and `formatMessage`
returns the not-found result (the identifier itself): the falsy test does
not distinguish a resolved empty string from `NotFound`. -/
theorem empty_string_treated_as_missing :
    searchForLocalization "general.Empty" [("Empty", Localization.str "")] =
      some (Localization.str "") ∧
    hasIdentifier cfgEmptyVal "general.Empty" = false ∧
    formatMessage cfgEmptyVal "general.Empty" none = "general.Empty" :=
  ⟨rfl, rfl, rfl⟩

/-- C6 (amended): the resolver is a total function (it never throws, any
internal failure is the `none` result), but a resolved empty string is not
distinguished from not-found: an identifier whose stored value is the
empty string is treated as missing both by `formatMessage` (which returns
the not-found result) and by `hasIdentifier` (which returns `false`). -/
theorem empty_string_not_distinguished :
    (∀ (cfg : Config) (merged : LocTree) (identifier : String) (data : Option LocalizationData),
      mergedLocalization cfg = some merged →
      searchForLocalizationDirect identifier merged = some (Localization.str "") →
      isFalsy (searchForLocalizationDirect (jsJoinDot (splitIdentifier identifier).2) merged) = true →
      formatMessage cfg identifier data =
        if cfg.showMissingIdentifierMessage then cfg.missingIdentifierMessage else identifier) ∧
    (∀ (cfg : Config) (identifier : String) (loc : LocTree),
      (splitIdentifier identifier).1 ≠ "" →
      loadLocalization cfg (splitIdentifier identifier).1 = some loc →
      searchForLocalization identifier loc = some (Localization.str "") →
      hasIdentifier cfg identifier = false) := by
  constructor
  · intro cfg merged identifier data hm hfound h2
    have h1 : isFalsy (searchForLocalizationDirect identifier merged) = true := by
      rw [hfound]
      rfl
    simp only [formatMessage, hm]
    rw [dispatchMessage_falsy _ _ _ _ (retryMessage_falsy merged identifier h1 h2)]
    rfl
  · intro cfg identifier loc hfn hload hsearch
    have hb : ((splitIdentifier identifier).1 == "") = false := beq_eq_false_iff_ne.mpr hfn
    simp [hasIdentifier, hb, hload, hsearch, isFalsy]

/-- Witness for the amended C6 at the concrete empty-string entry. -/
theorem empty_string_not_distinguished_witness :
    formatMessage cfgEmptyVal "Empty" none = "Empty" ∧
    hasIdentifier cfgEmptyVal "general.Empty" = false :=
  ⟨by simpa [cfgEmptyVal, cfgEn] using
      empty_string_not_distinguished.1 cfgEmptyVal [("Empty", Localization.str "")]
        "Empty" none rfl rfl rfl,
    empty_string_not_distinguished.2 cfgEmptyVal "general.Empty"
      [("Empty", Localization.str "")] (by decide) rfl rfl⟩

end I18XS
